import Mathlib

/-!
Verification model of the assessment-session state machine of this repository.

Two near-duplicate implementations exist in the source; both are embedded:

* `V1` models `src/unnamed/part_000` (the `AssessmentInterface` component using
  `endAssessment` / `askQuestion` / `handleSendMessage` / `handleSecurityAlert`).
* `V2` models `src/src/components/assessment/AssessmentInterface.tsx` (the
  variant using `startAssessment` / `speakText(_, isFirstQuestion)` /
  `sendMessage` / `handleFaceAwayViolation` with a 2-warning counter).

The React components are embedded as explicit event-driven state machines:
every asynchronous callback (speech-synthesis completion, per-question
timeout firing, timer tick, violation callback, user submission) is an event,
and each handler runs atomically against the current state, as prescribed by
the single-threaded cooperative concurrency model of the program.  Wall-clock
delays (`setTimeout` durations) are collapsed into event ordering.  Fields not
observable by any claim (timestamps, audio blobs, result `duration`,
the result's embedded alert snapshot) are not modelled.
-/

namespace Assessment

/-- Message sender, `"ai" | "candidate"` in the source. -/
inductive Sender
  | ai
  | candidate
deriving DecidableEq, Repr

/-- Message identifier.  The source uses `uuidv4()` strings for ordinary
messages and the sentinel string `"interim-message"` for the transient interim
transcript message; the two are modelled as distinct constructors, with
`uuid n` standing for the n-th fresh uuid drawn in the session. -/
inductive MsgId
  | uuid (n : Nat)
  | interimId
deriving DecidableEq, Repr

/-- A conversation message (`ConversationMessage` in the source; timestamp and
audio blob omitted). -/
structure Message where
  id : MsgId
  sender : Sender
  text : String
  isInterim : Bool
deriving DecidableEq, Repr

/-- Alert severity (`"low" | "medium" | "high"`). -/
inductive Severity
  | low
  | medium
  | high
deriving DecidableEq, Repr

/-- A security alert; only the severity is consulted by the session logic. -/
structure Alert where
  severity : Severity
deriving DecidableEq, Repr

/-- Termination reason, `"completed" | "violation" | "timeout"`. -/
inductive Reason
  | completed
  | violation
  | timeout
deriving DecidableEq, Repr

/-- Result status, `"completed" | "terminated"`. -/
inductive Status
  | completed
  | terminated
deriving DecidableEq, Repr

/-- The `assessmentResult` object built in `endAssessment`
(src/unnamed/part_000, lines 524-541); `duration`, `securityAlertsCount`,
`securityAlerts` and `messages` snapshots are omitted (no claim reads them). -/
structure AssessmentResult where
  questionsAnswered : Nat
  totalQuestions : Nat
  status : Status
  terminationReason : Option String
  score : Nat
  passed : Bool
  timeRemaining : Nat
deriving DecidableEq, Repr

/-- The `AssessmentConfig` fields the session logic consumes. -/
structure AssessmentConfig where
  duration : Nat
  questions : List String
  maxViolations : Nat
deriving Repr

/-- `Math.round((qa / total) * 100)` computed over exact rationals:
for nonnegative arguments JS `Math.round` is `⌊x + 1/2⌋`, and
`⌊100*qa/total + 1/2⌋ = (200*qa + total) / (2*total)` in natural division. -/
def jsRound100 (qa total : Nat) : Nat :=
  (200 * qa + total) / (2 * total)

/-- The blank test `!text.trim()` used by the submission guards: a string
trims to empty exactly when every character is whitespace. -/
def isBlank (t : String) : Bool :=
  t.toList.all Char.isWhitespace

namespace V1

/-!
## V1 — model of `src/unnamed/part_000`

Each React `useState` hook that the session logic reads or writes becomes a
field of `State`.  Handlers are the functions of the source; asynchronous
continuations (speech-synthesis `onend`, the 30-second response timeout, the
1500ms+500ms post-answer progression) are delivered as events.
-/
/-- What the speech-output adapter is currently synthesizing: the welcome
message, or the utterance of question `i`.  (`none` when idle; the
completion-message utterance spoken inside `endAssessment` is not tracked,
since its only continuation is delivering the already-built result.) -/
inductive SpeechItem
  | welcome
  | question (i : Nat)
deriving DecidableEq, Repr

/-- The component state of `src/unnamed/part_000` (lines 31-52), restricted to
the fields the session logic reads or writes.  `nextId` models the supply of
fresh `uuidv4()` identifiers; `speaking` models which utterance is in flight;
`pendingAdvance` models the scheduled post-answer progression callback of
`handleSendMessage`; `results` records every `assessmentResult` object built
by `endAssessment`. -/
structure State where
  messages : List Message
  currentQuestionIndex : Nat
  timerActive : Bool
  timeRemaining : Nat
  securityAlerts : List Alert
  waitingForUserResponse : Bool
  userHasResponded : Bool
  isAssessmentTerminated : Bool
  terminationReason : Option Reason
  questionTimeout : Option Nat
  assessmentInitialized : Bool
  questionsAnswered : Nat
  speaking : Option SpeechItem
  pendingAdvance : Option Nat
  nextId : Nat
  interimTranscript : String
  isTyping : Bool
  isMicMuted : Bool
  isRecording : Bool
  results : List AssessmentResult
deriving DecidableEq, Repr

/-- The welcome message text (line 123). -/
def welcomeText : String :=
  "Welcome to your AI assessment! I'll be asking you questions over the next 10 minutes. Please ensure you remain visible on camera throughout the assessment. Let's begin with the first question."

/-- The `terminationReason` string stored in the result (lines 531-536):
a reason-specific string for `violation`/`timeout`, `null` for `completed`. -/
def reasonMessage : Reason → Option String
  | .completed => none
  | .violation => some "Session terminated due to security violations"
  | .timeout => some "Session terminated due to time limit exceeded"

/-- The spoken completion message chosen in `endAssessment` (lines 549-561). -/
def completionMessage (reason : Reason) (finalQA total : Nat) : String :=
  match reason with
  | .completed => "Congratulations! You have successfully completed the assessment. Your responses have been recorded and will be analyzed."
  | .violation => "The assessment has been terminated due to security violations. You looked away from the camera for too long."
  | .timeout => s!"Time's up! The assessment has been terminated due to time limit exceeded. You answered {finalQA} out of {total} questions."

/-- `questionsAnswered` as reported by `endAssessment` (line 520): overridden
to the full question count when `reason === "completed"`. -/
def finalQuestionsAnswered (cfg : AssessmentConfig) (reason : Reason) (s : State) : Nat :=
  if reason = Reason.completed then cfg.questions.length else s.questionsAnswered

/-- The `assessmentResult` object built by `endAssessment` (lines 519-541). -/
def mkResult (cfg : AssessmentConfig) (reason : Reason) (s : State) : AssessmentResult :=
  let total := cfg.questions.length
  let finalQA := finalQuestionsAnswered cfg reason s
  let score := jsRound100 finalQA total
  { questionsAnswered := finalQA
    totalQuestions := total
    status := if reason = Reason.completed then Status.completed else Status.terminated
    terminationReason := reasonMessage reason
    score := score
    passed := if reason = Reason.completed then true else decide (60 ≤ score)
    timeRemaining := if reason = Reason.timeout then 0 else s.timeRemaining }

/-- `endAssessment(reason)` (lines 495-583): a no-op on an already-terminated
session; otherwise marks the session terminated, stops the timer and the
recording, builds the `assessmentResult`, and appends the spoken completion
message. -/
def endAssessment (cfg : AssessmentConfig) (reason : Reason) (s : State) : State :=
  if s.isAssessmentTerminated then s
  else
    { s with
        isAssessmentTerminated := true
        terminationReason := some reason
        timerActive := false
        isRecording := false
        speaking := none
        messages := s.messages ++
          [⟨MsgId.uuid s.nextId, Sender.ai,
            completionMessage reason (finalQuestionsAnswered cfg reason s) cfg.questions.length,
            false⟩]
        nextId := s.nextId + 1
        results := s.results ++ [mkResult cfg reason s] }

/-- `askQuestion(questionIndex)` (lines 290-337): early-returns when the
session is terminated or a response is being awaited; ends the assessment as
completed when the questions are exhausted; otherwise starts the timer on the
first question, records the question message and begins speaking it
(`speakText` mutes the microphone and marks the AI as speaking). -/
def askQuestion (cfg : AssessmentConfig) (i : Nat) (s : State) : State :=
  if s.isAssessmentTerminated || s.waitingForUserResponse then s
  else if cfg.questions.length ≤ i then endAssessment cfg Reason.completed s
  else
    let s1 := if i == 0 && !s.timerActive then { s with timerActive := true } else s
    { s1 with
        currentQuestionIndex := i
        messages := s1.messages ++
          [⟨MsgId.uuid s1.nextId, Sender.ai, cfg.questions.getD i "", false⟩]
        nextId := s1.nextId + 1
        waitingForUserResponse := false
        userHasResponded := false
        speaking := some (SpeechItem.question i)
        isMicMuted := true }

/-- `handleSendMessage(message)` (lines 407-455): rejects blank messages and
any submission after termination; otherwise clears the pending per-question
timeout, removes the interim message, appends the candidate message,
increments `questionsAnswered`, and schedules the post-answer progression
(captured as `pendingAdvance` holding `currentQuestionIndex + 1`). -/
def handleSendMessage (t : String) (s : State) : State :=
  if isBlank t || s.isAssessmentTerminated then s
  else
    { s with
        questionTimeout := none
        messages := (s.messages.filter fun m => m.id != MsgId.interimId) ++
          [⟨MsgId.uuid s.nextId, Sender.candidate, t, false⟩]
        nextId := s.nextId + 1
        waitingForUserResponse := false
        userHasResponded := true
        questionsAnswered := s.questionsAnswered + 1
        isTyping := true
        pendingAdvance := some (s.currentQuestionIndex + 1) }

/-- `handleSecurityAlert(alert)` (lines 464-472): ignored after termination;
appends the alert, then terminates with reason `violation` when the severity
is high or the *previously recorded* alert count (the closure value read by
the condition) has reached `maxViolations`. -/
def handleSecurityAlert (cfg : AssessmentConfig) (a : Alert) (s : State) : State :=
  if s.isAssessmentTerminated then s
  else
    let s1 := { s with securityAlerts := s.securityAlerts ++ [a] }
    if a.severity == Severity.high || cfg.maxViolations ≤ s.securityAlerts.length then
      endAssessment cfg Reason.violation s1
    else s1

/-- `handleFaceAwayViolation` (lines 478-493): ignored after termination;
records a high-severity face-not-detected alert and terminates with reason
`violation`. -/
def handleFaceAway (cfg : AssessmentConfig) (s : State) : State :=
  if s.isAssessmentTerminated then s
  else endAssessment cfg Reason.violation
    { s with securityAlerts := s.securityAlerts ++ [⟨Severity.high⟩] }

/-- One timer tick (effect at lines 64-88): only delivered while the timer is
active, time remains and the session is live; the tick that would reach zero
ends the assessment with reason `timeout` and pins `timeRemaining` at 0. -/
def tick (cfg : AssessmentConfig) (s : State) : State :=
  if s.timerActive && s.timeRemaining != 0 && !s.isAssessmentTerminated then
    if s.timeRemaining ≤ 1 then
      { endAssessment cfg Reason.timeout s with timeRemaining := 0 }
    else { s with timeRemaining := s.timeRemaining - 1 }
  else s

/-- The events that drive the session: `start` is the one-shot initialization
effect (lines 112-152); `welcomeDone` and `speechDone i` are speech-synthesis
completion callbacks; `qTimeout i` is the 30-second response timeout armed for
question `i` (lines 322-335); `submit` is a candidate submission reaching
`handleSendMessage`; `advanceFire` is the post-answer progression callback
(lines 443-454); `interim` is an interim speech-recognition result
(lines 211-226). -/
inductive Event
  | start
  | welcomeDone
  | speechDone (i : Nat)
  | qTimeout (i : Nat)
  | submit (t : String)
  | advanceFire
  | tick
  | securityAlert (sev : Severity)
  | faceAway
  | interim (t : String)
deriving DecidableEq, Repr

/-- One atomic step of the session: dispatches an event to the corresponding
handler of `src/unnamed/part_000`. -/
def step (cfg : AssessmentConfig) (e : Event) (s : State) : State :=
  match e with
  | .start =>
      if s.isAssessmentTerminated || s.assessmentInitialized then s
      else
        { s with
            assessmentInitialized := true
            messages := [⟨MsgId.uuid s.nextId, Sender.ai, welcomeText, false⟩]
            nextId := s.nextId + 1
            speaking := some SpeechItem.welcome
            isMicMuted := true }
  | .welcomeDone =>
      if s.speaking == some SpeechItem.welcome then
        askQuestion cfg 0 { s with speaking := none }
      else s
  | .speechDone i =>
      if s.speaking == some (SpeechItem.question i) then
        { s with
            speaking := none
            waitingForUserResponse := true
            isMicMuted := false
            questionTimeout := some i }
      else s
  | .qTimeout i =>
      if s.questionTimeout == some i then
        let s1 := { s with questionTimeout := none }
        if !s1.userHasResponded && !s1.isAssessmentTerminated then
          if i + 1 < cfg.questions.length then askQuestion cfg (i + 1) s1
          else endAssessment cfg Reason.completed s1
        else s1
      else s
  | .submit t => handleSendMessage t s
  | .advanceFire =>
      match s.pendingAdvance with
      | some n =>
          let s1 := { s with pendingAdvance := none, isTyping := false }
          if n < cfg.questions.length then
            askQuestion cfg n { s1 with userHasResponded := false, waitingForUserResponse := false }
          else endAssessment cfg Reason.completed s1
      | none => s
  | .tick => tick cfg s
  | .securityAlert sev => handleSecurityAlert cfg ⟨sev⟩ s
  | .faceAway => handleFaceAway cfg s
  | .interim t =>
      if t == "" then s
      else
        { s with
            interimTranscript := t
            messages := (s.messages.filter fun m => m.id != MsgId.interimId) ++
              [⟨MsgId.interimId, Sender.candidate, t, true⟩] }

/-- The initial component state (lines 31-52): `timeRemaining` is hard-coded
to `10 * 60` seconds. -/
def initState : State :=
  { messages := []
    currentQuestionIndex := 0
    timerActive := false
    timeRemaining := 600
    securityAlerts := []
    waitingForUserResponse := false
    userHasResponded := false
    isAssessmentTerminated := false
    terminationReason := none
    questionTimeout := none
    assessmentInitialized := false
    questionsAnswered := 0
    speaking := none
    pendingAdvance := none
    nextId := 0
    interimTranscript := ""
    isTyping := false
    isMicMuted := true
    isRecording := false
    results := [] }

/-- Run the session from the initial state through a list of events. -/
def run (cfg : AssessmentConfig) (evs : List Event) : State :=
  evs.foldl (fun s e => step cfg e s) initState

/-- How a transition from `s` to `s'` may affect the produced results: either
the result list and the terminal flags are untouched, or the session
transitions from live to terminated and exactly one result is appended. -/
def ResultsOk (s s' : State) : Prop :=
  (s'.results = s.results ∧ s'.isAssessmentTerminated = s.isAssessmentTerminated ∧
    s'.terminationReason = s.terminationReason) ∨
  (s.isAssessmentTerminated = false ∧ s'.isAssessmentTerminated = true ∧
    ∃ r, s'.results = s.results ++ [r])

/-- The number of live interim messages: messages carrying the sentinel id
`"interim-message"`. -/
def interimCount (msgs : List Message) : Nat :=
  (msgs.filter fun m => m.id == MsgId.interimId).length

/-- The run invariant behind C3: at most one result ever exists, and a live
session has produced none. -/
def ResultsInv (s : State) : Prop :=
  s.results.length ≤ 1 ∧ (s.isAssessmentTerminated = false → s.results = [])

end V1

/-- The spec's `Session Phase` enumeration (spec §3). -/
inductive SpecPhase
  | notStarted
  | speakingQ (i : Nat)
  | awaitingResponse (i : Nat)
  | processing (i : Nat)
  | completedPhase
  | terminatedPhase (r : Reason)
deriving DecidableEq, Repr

/-- Modelled from the spec: the spec's phase abstraction (§3) over the V1 flag
set.  Per §4.1, `start()` triggers `speak(welcomeText + firstQuestion)`, so the
`Speaking(0)` phase covers the welcome-plus-first-question utterance sequence
that `start()` initiates (in V1 these are consecutive utterances); the
`none`-reason terminal branch is unreachable, since termination always records
a reason. -/
def V1.specPhase (s : V1.State) : SpecPhase :=
  if s.isAssessmentTerminated then
    match s.terminationReason with
    | some Reason.completed => SpecPhase.completedPhase
    | some r => SpecPhase.terminatedPhase r
    | none => SpecPhase.terminatedPhase Reason.violation
  else if !s.assessmentInitialized then SpecPhase.notStarted
  else if s.speaking.isSome then SpecPhase.speakingQ s.currentQuestionIndex
  else if s.waitingForUserResponse then SpecPhase.awaitingResponse s.currentQuestionIndex
  else SpecPhase.processing s.currentQuestionIndex

namespace V2

/-!
## V2 — model of `src/src/components/assessment/AssessmentInterface.tsx`

Same embedding style as V1.  The speech-synthesis utterances of this variant
carry an `isFirstQuestion` flag (`speakText(text, isFirstQuestion)`); the
in-flight utterance is tracked as `speakingFirst : Option Bool`.  The
`onstart` callback of an utterance (which marks the AI as reading and revokes
`canUserRespond`) is applied at the `speakText` call site; speech-recognition
internals are not modelled (no claim reads them).  `resultsCount` counts the
`AssessmentResult` objects handed to `onAssessmentComplete`. -/
/-- A chat message of the V2 variant (ids and timestamps omitted). -/
structure Msg where
  sender : Sender
  text : String
deriving DecidableEq, Repr

/-- The component state of the V2 variant (lines 59-98), restricted to the
fields its session logic reads or writes.  `pendingAi` models the scheduled
2-second AI-response callback of `sendMessage` (holding the captured
`currentQuestion`); `pendingComplete` models the scheduled 3-second
result-delivery callback of the completion branch. -/
structure State where
  isMuted : Bool
  isAssessmentActive : Bool
  currentQuestion : Nat
  messages : List Msg
  inputText : String
  isAITyping : Bool
  timeRemaining : Nat
  timerStarted : Bool
  securityAlertsCount : Nat
  faceWarningCount : Nat
  showFaceWarning : Bool
  isAssessmentTerminated : Bool
  isAIReading : Bool
  canUserRespond : Bool
  faceDetected : Bool
  finalTranscript : String
  speakingFirst : Option Bool
  pendingAi : Option Nat
  pendingComplete : Bool
  resultsCount : Nat
deriving DecidableEq, Repr

/-- The welcome message of `startAssessment` (lines 582-593), which embeds the
configured duration, the question count and the text of the first question. -/
def welcomeText (cfg : AssessmentConfig) : String :=
  "Welcome to your AI interview assessment. I'm your AI interviewer today. We have "
    ++ toString cfg.duration ++ " minutes for " ++ toString cfg.questions.length
    ++ " questions. \n\nPlease ensure your camera and microphone are working properly. Keep your face aligned with the silhouette guide. You can respond using voice (which will be transcribed automatically) or by typing your responses.\n\nI will read each question aloud. Please wait for me to finish before responding. The timer will start after I finish reading the first question.\n\nLet's begin with our first question: "
    ++ cfg.questions.getD 0 ""

/-- The AI acknowledgement that advances to question `nxt` (line 633). -/
def advanceText (cfg : AssessmentConfig) (nxt : Nat) : String :=
  "Thank you for that response. Let's move on to question " ++ toString (nxt + 1)
    ++ ": " ++ cfg.questions.getD nxt ""

/-- The AI message of the completion branch (lines 636-638). -/
def doneText : String :=
  "Thank you for completing all the questions. Your assessment is now complete. We'll review your responses and get back to you soon."

/-- `startAssessment` (lines 576-600): activates the session, resets the
face-warning counter and the timer-started flag, installs the welcome message
(which ends with the first question) and begins speaking it with
`isFirstQuestion = true`.  The function is reachable only through the start
button, which is rendered only while the assessment is not active and is
disabled once terminated (lines 815-845); that gating is the guard here. -/
def startAssessment (cfg : AssessmentConfig) (s : State) : State :=
  if s.isAssessmentActive || s.isAssessmentTerminated then s
  else
    { s with
        isAssessmentActive := true
        faceWarningCount := 0
        isAssessmentTerminated := false
        timerStarted := false
        messages := [⟨Sender.ai, welcomeText cfg⟩]
        speakingFirst := some true
        isAIReading := true
        canUserRespond := false }

/-- The `onend` callback of `speakText` (lines 504-527): clears the reading
flag, grants `canUserRespond`, unmutes, and — exactly when the utterance was
marked `isFirstQuestion` — starts the timer. -/
def utteranceEnd (s : State) : State :=
  match s.speakingFirst with
  | none => s
  | some isFirst =>
      { s with
          speakingFirst := none
          isAIReading := false
          canUserRespond := true
          isMuted := false
          timerStarted := if isFirst then true else s.timerStarted }

/-- The `onerror` callback of `speakText` (lines 529-535): a soft completion —
clears the reading flag, grants `canUserRespond`, and starts the timer when
the utterance was marked `isFirstQuestion`. -/
def utteranceError (s : State) : State :=
  match s.speakingFirst with
  | none => s
  | some isFirst =>
      { s with
          speakingFirst := none
          isAIReading := false
          canUserRespond := true
          timerStarted := if isFirst then true else s.timerStarted }

/-- `sendMessage` (lines 602-657): rejects the submission outright when no
face is currently detected (lines 603-606), and when the input is blank or
`canUserRespond` is false (line 608); otherwise appends the candidate
message, clears the input and transcript, mutes, revokes `canUserRespond`,
and schedules the AI response (capturing `currentQuestion`). -/
def sendMessage (s : State) : State :=
  if !s.faceDetected then s
  else if isBlank s.inputText || !s.canUserRespond then s
  else
    { s with
        messages := s.messages ++ [⟨Sender.candidate, s.inputText⟩]
        inputText := ""
        finalTranscript := ""
        isAITyping := true
        canUserRespond := false
        isMuted := true
        pendingAi := some s.currentQuestion }

/-- The 2-second callback of `sendMessage` (lines 630-678): advances to the
next question and speaks the acknowledgement, or, when the questions are
exhausted, speaks the completion message and schedules the result delivery. -/
def aiRespond (cfg : AssessmentConfig) (s : State) : State :=
  match s.pendingAi with
  | none => s
  | some cq =>
      let nxt := cq + 1
      if nxt < cfg.questions.length then
        { s with
            pendingAi := none
            currentQuestion := nxt
            messages := s.messages ++ [⟨Sender.ai, advanceText cfg nxt⟩]
            isAITyping := false
            speakingFirst := some false
            isAIReading := true
            canUserRespond := false }
      else
        { s with
            pendingAi := none
            pendingComplete := true
            messages := s.messages ++ [⟨Sender.ai, doneText⟩]
            isAITyping := false
            speakingFirst := some false
            isAIReading := true
            canUserRespond := false }

/-- The 3-second completion callback (lines 640-656): delivers the result via
`onAssessmentComplete` (this branch does not flip the terminated flag). -/
def completeDeliver (s : State) : State :=
  if s.pendingComplete then
    { s with pendingComplete := false, resultsCount := s.resultsCount + 1 }
  else s

/-- `handleFaceAwayViolation` (lines 120-163): increments the face-warning
counter; at the second warning terminates the session and delivers a result,
otherwise shows a dismissible warning. -/
def handleFaceAwayViolation (s : State) : State :=
  let n := s.faceWarningCount + 1
  if 2 ≤ n then
    { s with
        faceWarningCount := n
        isAssessmentTerminated := true
        isAssessmentActive := false
        resultsCount := s.resultsCount + 1 }
  else { s with faceWarningCount := n, showFaceWarning := true }

/-- `handleSecurityAlert` (lines 109-112): records the alert; this variant
never terminates from here. -/
def handleSecurityAlert (s : State) : State :=
  { s with securityAlertsCount := s.securityAlertsCount + 1 }

/-- One timer tick (effect at lines 431-469): gated on the session being
active, the timer having been started, time remaining and the session not
terminated; the tick that exhausts the time terminates the session and
delivers a result. -/
def tick (s : State) : State :=
  if s.isAssessmentActive && s.timerStarted && s.timeRemaining != 0
      && !s.isAssessmentTerminated then
    if s.timeRemaining ≤ 1 then
      { s with
          timeRemaining := 0
          isAssessmentTerminated := true
          isAssessmentActive := false
          resultsCount := s.resultsCount + 1 }
    else { s with timeRemaining := s.timeRemaining - 1 }
  else s

/-- The events that drive the V2 session. -/
inductive Event
  | start
  | utterDone
  | utterErr
  | aiFire
  | completeFire
  | faceAway
  | securityAlert
  | tick
  | send
  | typeText (t : String)
  | faceUpdate (b : Bool)
deriving DecidableEq, Repr

/-- One atomic step of the V2 session.  `typeText` models editing the input
textarea; `faceUpdate` models `handleFaceDetectionUpdate` (lines 115-117). -/
def step (cfg : AssessmentConfig) (e : Event) (s : State) : State :=
  match e with
  | .start => startAssessment cfg s
  | .utterDone => utteranceEnd s
  | .utterErr => utteranceError s
  | .aiFire => aiRespond cfg s
  | .completeFire => completeDeliver s
  | .faceAway => handleFaceAwayViolation s
  | .securityAlert => handleSecurityAlert s
  | .tick => tick s
  | .send => sendMessage s
  | .typeText t => { s with inputText := t }
  | .faceUpdate b => { s with faceDetected := b }

/-- The initial component state (lines 59-98): `timeRemaining` is
`config.duration * 60`. -/
def initState (cfg : AssessmentConfig) : State :=
  { isMuted := true
    isAssessmentActive := false
    currentQuestion := 0
    messages := []
    inputText := ""
    isAITyping := false
    timeRemaining := cfg.duration * 60
    timerStarted := false
    securityAlertsCount := 0
    faceWarningCount := 0
    showFaceWarning := false
    isAssessmentTerminated := false
    isAIReading := false
    canUserRespond := false
    faceDetected := false
    finalTranscript := ""
    speakingFirst := none
    pendingAi := none
    pendingComplete := false
    resultsCount := 0 }

/-- Run the V2 session from its initial state through a list of events. -/
def run (cfg : AssessmentConfig) (evs : List Event) : State :=
  evs.foldl (fun s e => step cfg e s) (initState cfg)

/-- The flag invariant behind C5: once the timer-started flag is set, and
while the first-question utterance is in flight, the session has been
activated (or has already terminated) — so `startAssessment`, the only writer
that could reset the flag, is guarded off. -/
def FlagInv (s : State) : Prop :=
  (s.timerStarted = true →
    s.isAssessmentActive = true ∨ s.isAssessmentTerminated = true) ∧
  (s.speakingFirst = some true →
    s.isAssessmentActive = true ∨ s.isAssessmentTerminated = true)

end V2

/-! ## Shared concrete inputs -/
/-- A three-question configuration with `maxViolations = 2`, as in the spec's
worked example. -/
def exampleConfig : AssessmentConfig :=
  ⟨10, ["Q0", "Q1", "Q2"], 2⟩

/-- A one-question, one-minute V2 configuration for the C3 failing input. -/
def claim3Config : AssessmentConfig :=
  ⟨1, ["Q0"], 2⟩

/-- The C3 failing trace up to the race window: the welcome-plus-question
utterance completes (starting the timer), a face is detected, and the
candidate types and submits an answer to the only question; the AI-response
callback then takes the completion branch, scheduling the result delivery. -/
def claim3Events : List V2.Event :=
  [.start, .utterDone, .faceUpdate true, .typeText "answer", .send, .aiFire]

/-- The V2 state after the timer then runs out (60 ticks of the one-minute
budget) while the completion delivery is still pending: the timeout has
already delivered a first result. -/
def claim3Expired : V2.State :=
  V2.run claim3Config (claim3Events ++ List.replicate 60 V2.Event.tick)

/-- A two-question configuration exhibiting the C6 divergence. -/
def claim6Config : AssessmentConfig :=
  ⟨10, ["Q0", "Q1"], 2⟩

/-- The state right after question 0 has been spoken: the response timeout for
question 0 is armed and the session awaits a response. -/
def claim6State : V1.State :=
  V1.run claim6Config [.start, .welcomeDone, .speechDone 0]

/-- A state with a face detected and a non-blank draft, but outside the
response window (`canUserRespond = false`). -/
def claim7State : V2.State :=
  { V2.initState exampleConfig with inputText := "my answer", faceDetected := true }

/-- A one-question configuration for the C10 witness. -/
def claim10Config : AssessmentConfig :=
  ⟨10, ["Q0"], 2⟩

/-- The state right after the only question has been spoken, its response
timeout armed and nothing answered. -/
def claim10State : V1.State :=
  V1.run claim10Config [.start, .welcomeDone, .speechDone 0]

namespace V1

/-- `endAssessment` is an exact no-op once the session is terminated. -/
theorem endAssessment_of_terminated (cfg : AssessmentConfig) (r : Reason) (s : State)
    (h : s.isAssessmentTerminated = true) : endAssessment cfg r s = s := by
  simp [endAssessment, h]

/-- `handleSecurityAlert` is an exact no-op once the session is terminated. -/
theorem handleSecurityAlert_of_terminated (cfg : AssessmentConfig) (a : Alert) (s : State)
    (h : s.isAssessmentTerminated = true) : handleSecurityAlert cfg a s = s := by
  simp [handleSecurityAlert, h]

theorem resultsOk_refl (s : State) : ResultsOk s s :=
  Or.inl ⟨rfl, rfl, rfl⟩

/-- Transfer `ResultsOk` across an intermediate state that agrees with the
source on results and terminal flags. -/
theorem resultsOk_congr {s t u : State} (hres : t.results = s.results)
    (hterm : t.isAssessmentTerminated = s.isAssessmentTerminated)
    (hreas : t.terminationReason = s.terminationReason)
    (h : ResultsOk t u) : ResultsOk s u := by
  rcases h with ⟨h1, h2, h3⟩ | ⟨h1, h2, r, h3⟩
  · exact Or.inl ⟨h1.trans hres, h2.trans hterm, h3.trans hreas⟩
  · exact Or.inr ⟨hterm ▸ h1, h2, r, h3.trans (by rw [hres])⟩

theorem endAssessment_resultsOk (cfg : AssessmentConfig) (r : Reason) (s : State) :
    ResultsOk s (endAssessment cfg r s) := by
  by_cases h : s.isAssessmentTerminated
  · rw [endAssessment_of_terminated cfg r s h]
    exact resultsOk_refl s
  · refine Or.inr ⟨by simpa using h, ?_, mkResult cfg r s, ?_⟩ <;>
      simp [endAssessment, h]

theorem askQuestion_resultsOk (cfg : AssessmentConfig) (i : Nat) (s : State) :
    ResultsOk s (askQuestion cfg i s) := by
  unfold askQuestion
  split
  · exact resultsOk_refl s
  · split
    · exact endAssessment_resultsOk cfg Reason.completed s
    · split <;> exact Or.inl ⟨rfl, rfl, rfl⟩

/-- Every event either leaves the result list and terminal flags untouched,
or terminates a live session while appending exactly one result. -/
theorem step_resultsOk (cfg : AssessmentConfig) (e : Event) (s : State) :
    ResultsOk s (step cfg e s) := by
  cases e with
  | start =>
      simp only [step]
      split
      · exact resultsOk_refl s
      · exact Or.inl ⟨rfl, rfl, rfl⟩
  | welcomeDone =>
      simp only [step]
      split
      · exact resultsOk_congr rfl rfl rfl (askQuestion_resultsOk cfg 0 _)
      · exact resultsOk_refl s
  | speechDone i =>
      simp only [step]
      split
      · exact Or.inl ⟨rfl, rfl, rfl⟩
      · exact resultsOk_refl s
  | qTimeout i =>
      simp only [step]
      split
      · split
        · split
          · exact resultsOk_congr rfl rfl rfl (askQuestion_resultsOk cfg (i + 1) _)
          · exact resultsOk_congr rfl rfl rfl (endAssessment_resultsOk cfg Reason.completed _)
        · exact Or.inl ⟨rfl, rfl, rfl⟩
      · exact resultsOk_refl s
  | submit t =>
      simp only [step, handleSendMessage]
      split
      · exact resultsOk_refl s
      · exact Or.inl ⟨rfl, rfl, rfl⟩
  | advanceFire =>
      simp only [step]
      split
      · split
        · exact resultsOk_congr rfl rfl rfl (askQuestion_resultsOk cfg _ _)
        · exact resultsOk_congr rfl rfl rfl (endAssessment_resultsOk cfg Reason.completed _)
      · exact resultsOk_refl s
  | tick =>
      simp only [step, tick]
      split
      · split
        · rename_i hcond _
          have hterm : s.isAssessmentTerminated = false := by
            simp only [Bool.and_eq_true, Bool.not_eq_true'] at hcond
            exact hcond.2
          refine Or.inr ⟨hterm, ?_, mkResult cfg Reason.timeout s, ?_⟩ <;>
            simp [endAssessment, hterm]
        · exact Or.inl ⟨rfl, rfl, rfl⟩
      · exact resultsOk_refl s
  | securityAlert sev =>
      simp only [step, handleSecurityAlert]
      split
      · exact resultsOk_refl s
      · split
        · exact resultsOk_congr rfl rfl rfl (endAssessment_resultsOk cfg Reason.violation _)
        · exact Or.inl ⟨rfl, rfl, rfl⟩
  | faceAway =>
      simp only [step, handleFaceAway]
      split
      · exact resultsOk_refl s
      · exact resultsOk_congr rfl rfl rfl (endAssessment_resultsOk cfg Reason.violation _)
  | interim t =>
      simp only [step]
      split
      · exact resultsOk_refl s
      · exact Or.inl ⟨rfl, rfl, rfl⟩

theorem interimCount_append (l : List Message) (m : Message) :
    interimCount (l ++ [m]) =
      interimCount l + (if m.id == MsgId.interimId then 1 else 0) := by
  simp only [interimCount, List.filter_append, List.length_append]
  split <;> rename_i hm <;> simp [List.filter_cons, hm]

theorem interimCount_filterOut (l : List Message) :
    interimCount (l.filter fun m => m.id != MsgId.interimId) = 0 := by
  simp only [interimCount, List.length_eq_zero, List.filter_eq_nil]
  intro m hm
  have hmem := List.of_mem_filter hm
  simpa using hmem

theorem endAssessment_interimCount (cfg : AssessmentConfig) (r : Reason) (s : State) :
    interimCount (endAssessment cfg r s).messages = interimCount s.messages := by
  unfold endAssessment
  split
  · rfl
  · simp [interimCount_append]

theorem askQuestion_interimCount (cfg : AssessmentConfig) (i : Nat) (s : State) :
    interimCount (askQuestion cfg i s).messages = interimCount s.messages := by
  unfold askQuestion
  split
  · rfl
  · split
    · exact endAssessment_interimCount cfg Reason.completed s
    · split <;> simp [interimCount_append]

/-- Every event keeps the number of live interim messages at most one. -/
theorem step_interimCount (cfg : AssessmentConfig) (e : Event) (s : State)
    (h : interimCount s.messages ≤ 1) :
    interimCount (step cfg e s).messages ≤ 1 := by
  cases e with
  | start =>
      simp only [step]
      split
      · exact h
      · simp [interimCount]
  | welcomeDone =>
      simp only [step]
      split
      · rw [askQuestion_interimCount]
        exact h
      · exact h
  | speechDone i =>
      simp only [step]
      split
      · exact h
      · exact h
  | qTimeout i =>
      simp only [step]
      split
      · split
        · split
          · rw [askQuestion_interimCount]
            exact h
          · rw [endAssessment_interimCount]
            exact h
        · exact h
      · exact h
  | submit t =>
      simp only [step, handleSendMessage]
      split
      · exact h
      · simp [interimCount_append, interimCount_filterOut]
  | advanceFire =>
      simp only [step]
      split
      · split
        · rw [askQuestion_interimCount]
          exact h
        · rw [endAssessment_interimCount]
          exact h
      · exact h
  | tick =>
      simp only [step, tick]
      split
      · split
        · rw [show ({ endAssessment cfg Reason.timeout s with timeRemaining := 0} :
              State).messages = (endAssessment cfg Reason.timeout s).messages from rfl]
          rw [endAssessment_interimCount]
          exact h
        · exact h
      · exact h
  | securityAlert sev =>
      simp only [step, handleSecurityAlert]
      split
      · exact h
      · split
        · rw [endAssessment_interimCount]
          exact h
        · exact h
  | faceAway =>
      simp only [step, handleFaceAway]
      split
      · exact h
      · rw [endAssessment_interimCount]
        exact h
  | interim t =>
      simp only [step]
      split
      · exact h
      · simp [interimCount_append, interimCount_filterOut]

/-- At most one interim message is ever live along any run. -/
theorem interimCount_run (cfg : AssessmentConfig) (evs : List Event) :
    interimCount (run cfg evs).messages ≤ 1 := by
  suffices h : ∀ (l : List Event) (s : State), interimCount s.messages ≤ 1 →
      interimCount ((l.foldl (fun s e => step cfg e s) s).messages) ≤ 1 by
    exact h evs initState (by simp [initState, interimCount])
  intro l
  induction l with
  | nil => exact fun s hs => hs
  | cons e l ih => exact fun s hs => ih _ (step_interimCount cfg e s hs)

theorem resultsInv_step (cfg : AssessmentConfig) (e : Event) (s : State)
    (h : ResultsInv s) : ResultsInv (step cfg e s) := by
  rcases step_resultsOk cfg e s with ⟨h1, h2, _⟩ | ⟨h1, h2, r, h3⟩
  · exact ⟨h1 ▸ h.1, fun hf => h1 ▸ h.2 (h2 ▸ hf)⟩
  · refine ⟨?_, fun hf => by rw [hf] at h2; cases h2⟩
    rw [h3, h.2 h1]
    simp

theorem resultsInv_run (cfg : AssessmentConfig) (evs : List Event) :
    ResultsInv (run cfg evs) := by
  suffices h : ∀ (l : List Event) (s : State), ResultsInv s →
      ResultsInv (l.foldl (fun s e => step cfg e s) s) by
    exact h evs initState ⟨by simp [initState], fun _ => rfl⟩
  intro l
  induction l with
  | nil => exact fun s hs => hs
  | cons e l ih => exact fun s hs => ih _ (resultsInv_step cfg e s hs)

end V1

namespace V2

theorem flagInv_step (cfg : AssessmentConfig) (e : Event) (s : State)
    (h : FlagInv s) : FlagInv (step cfg e s) := by
  obtain ⟨h1, h2⟩ := h
  cases e with
  | start =>
      simp only [step, startAssessment]
      split
      · exact ⟨h1, h2⟩
      · exact ⟨fun _ => Or.inl rfl, fun _ => Or.inl rfl⟩
  | utterDone =>
      simp only [step, utteranceEnd]
      match hs : s.speakingFirst with
      | none => exact ⟨h1, h2⟩
      | some isFirst =>
          refine ⟨fun ht => ?_, fun hf => by simp at hf⟩
          cases isFirst with
          | true => exact h2 hs
          | false =>
              simp at ht
              exact h1 ht
  | utterErr =>
      simp only [step, utteranceError]
      match hs : s.speakingFirst with
      | none => exact ⟨h1, h2⟩
      | some isFirst =>
          refine ⟨fun ht => ?_, fun hf => by simp at hf⟩
          cases isFirst with
          | true => exact h2 hs
          | false =>
              simp at ht
              exact h1 ht
  | aiFire =>
      simp only [step, aiRespond]
      match hs : s.pendingAi with
      | none => exact ⟨h1, h2⟩
      | some cq =>
          by_cases hlt : cq + 1 < cfg.questions.length <;>
            simp only [hlt, if_true, if_false, reduceIte] <;>
            exact ⟨fun ht => h1 ht, fun hf => by simp at hf⟩
  | completeFire =>
      simp only [step, completeDeliver]
      split <;> exact ⟨h1, h2⟩
  | faceAway =>
      simp only [step, handleFaceAwayViolation]
      split
      · exact ⟨fun _ => Or.inr rfl, fun _ => Or.inr rfl⟩
      · exact ⟨h1, h2⟩
  | securityAlert =>
      simp only [step, handleSecurityAlert]
      exact ⟨h1, h2⟩
  | tick =>
      simp only [step, tick]
      split
      · split
        · exact ⟨fun _ => Or.inr rfl, fun _ => Or.inr rfl⟩
        · exact ⟨h1, h2⟩
      · exact ⟨h1, h2⟩
  | send =>
      simp only [step, sendMessage]
      split
      · exact ⟨h1, h2⟩
      · split
        · exact ⟨h1, h2⟩
        · exact ⟨fun ht => h1 ht, fun hf => h2 hf⟩
  | typeText t =>
      exact ⟨h1, h2⟩
  | faceUpdate b =>
      exact ⟨h1, h2⟩

theorem flagInv_run (cfg : AssessmentConfig) (evs : List Event) :
    FlagInv (run cfg evs) := by
  suffices h : ∀ (l : List Event) (s : State), FlagInv s →
      FlagInv (l.foldl (fun s e => step cfg e s) s) by
    exact h evs (initState cfg) ⟨fun ht => by simp [initState] at ht,
      fun hf => by simp [initState] at hf⟩
  intro l
  induction l with
  | nil => exact fun s hs => hs
  | cons e l ih => exact fun s hs => ih _ (flagInv_step cfg e s hs)

end V2

/-! ## Claim C1 -/

/-- `201 * n / (2 * n) = 100`: completed sessions always score 100. -/
theorem jsRound100_self (n : Nat) (h : 0 < n) : jsRound100 n n = 100 := by
  unfold jsRound100
  rw [show 200 * n + n = 2 * n * 100 + n by ring]
  rw [Nat.mul_add_div (by omega)]
  have hz : n / (2 * n) = 0 := Nat.div_eq_of_lt (by omega)
  omega

/-! ## Claim C2 -/
/-- C2 counterexample: with `maxViolations = 2`, a *single* high-severity
violation report on a fresh session already forces `Terminated(violation)` —
the violation counter is 1, not the configured maximum 2, at the moment of
termination, so the session does not terminate "exactly when the counter
reaches the configured maximum". -/
theorem claim2_counterexample :
    (V1.step exampleConfig (V1.Event.securityAlert Severity.high)
        V1.initState).isAssessmentTerminated = true ∧
    (V1.step exampleConfig (V1.Event.securityAlert Severity.high)
        V1.initState).terminationReason = some Reason.violation ∧
    (V1.step exampleConfig (V1.Event.securityAlert Severity.high)
        V1.initState).securityAlerts.length = 1 ∧
    exampleConfig.maxViolations = 2 := by
  decide

/-- C2 (amended): the first violation report with severity High already forces
`Terminated(violation)` and appends exactly one `AssessmentResult`; any
violation report arriving after termination is an exact no-op, so no second
result is ever produced. -/
theorem claim2_amended_highSeverity (cfg : AssessmentConfig) (a : Alert) (s : V1.State)
    (hterm : s.isAssessmentTerminated = false) (hsev : a.severity = Severity.high) :
    (V1.handleSecurityAlert cfg a s).isAssessmentTerminated = true ∧
    (V1.handleSecurityAlert cfg a s).terminationReason = some Reason.violation ∧
    (V1.handleSecurityAlert cfg a s).results.length = s.results.length + 1 ∧
    ∀ b : Alert, V1.handleSecurityAlert cfg b (V1.handleSecurityAlert cfg a s) =
      V1.handleSecurityAlert cfg a s := by
  have h1 : (V1.handleSecurityAlert cfg a s).isAssessmentTerminated = true := by
    simp [V1.handleSecurityAlert, V1.endAssessment, hterm, hsev]
  refine ⟨h1, ?_, ?_, ?_⟩
  · simp [V1.handleSecurityAlert, V1.endAssessment, hterm, hsev]
  · simp [V1.handleSecurityAlert, V1.endAssessment, hterm, hsev]
  · intro b
    exact V1.handleSecurityAlert_of_terminated cfg b _ h1

/-- Witness for the amended C2 at a concrete input. -/
theorem claim2_amended_highSeverity_witness :
    (V1.handleSecurityAlert exampleConfig ⟨Severity.high⟩ V1.initState).isAssessmentTerminated
        = true ∧
    (V1.handleSecurityAlert exampleConfig ⟨Severity.high⟩ V1.initState).terminationReason
        = some Reason.violation ∧
    (V1.handleSecurityAlert exampleConfig ⟨Severity.high⟩ V1.initState).results.length
        = V1.initState.results.length + 1 ∧
    ∀ b : Alert, V1.handleSecurityAlert exampleConfig b
        (V1.handleSecurityAlert exampleConfig ⟨Severity.high⟩ V1.initState) =
      V1.handleSecurityAlert exampleConfig ⟨Severity.high⟩ V1.initState :=
  claim2_amended_highSeverity exampleConfig ⟨Severity.high⟩ V1.initState (by decide) rfl

/-! ## Claim C3 -/
/-- The exactly-once-result guarantee the claim states does hold of the V1
variant: over every event sequence at most one `AssessmentResult` is ever
produced, and once the session is terminal every further event leaves the
result list, the terminated flag and the termination reason untouched —
`endAssessment`'s early-return guard implements the spec's idempotent
terminal entry.  (V2 lacks this guard; see `claim3_two_results`.) -/
theorem v1_single_result (cfg : AssessmentConfig) (evs : List V1.Event) (e : V1.Event) :
    (V1.run cfg evs).results.length ≤ 1 ∧
    ((V1.run cfg evs).isAssessmentTerminated = true →
      (V1.run cfg (evs ++ [e])).results = (V1.run cfg evs).results ∧
      (V1.run cfg (evs ++ [e])).isAssessmentTerminated = true ∧
      (V1.run cfg (evs ++ [e])).terminationReason = (V1.run cfg evs).terminationReason) := by
  have hrun : V1.run cfg (evs ++ [e]) = V1.step cfg e (V1.run cfg evs) := by
    simp [V1.run, List.foldl_append]
  refine ⟨(V1.resultsInv_run cfg evs).1, fun hterm => ?_⟩
  rcases V1.step_resultsOk cfg e (V1.run cfg evs) with ⟨h1, h2, h3⟩ | ⟨h1, _, _⟩
  · exact ⟨hrun ▸ h1, hrun ▸ (h2.trans hterm), hrun ▸ h3⟩
  · rw [hterm] at h1
    cases h1

/-- C3, failing input, on the cited V2 variant: the candidate answers the only
question, so `sendMessage`'s completion branch schedules the result delivery
on a 3-second timeout that nothing cancels — and it neither marks the session
terminated nor clears `isAssessmentActive`, so the timer keeps running.  The
timer expiry then delivers a first (timeout) result, after which the
still-pending completion callback delivers a second one.  This refutes "at
most one AssessmentResult is ever produced" for the program as a whole; the
spec's exactly-once intent is implemented only by V1 (`v1_single_result`). -/
theorem claim3_two_results :
    (V2.run claim3Config claim3Events).pendingComplete = true ∧
    (V2.run claim3Config claim3Events).isAssessmentActive = true ∧
    (V2.run claim3Config claim3Events).timerStarted = true ∧
    (V2.run claim3Config claim3Events).isAssessmentTerminated = false ∧
    claim3Expired.isAssessmentTerminated = true ∧
    claim3Expired.resultsCount = 1 ∧
    claim3Expired.pendingComplete = true ∧
    (V2.step claim3Config V2.Event.completeFire claim3Expired).resultsCount = 2 := by
  set_option maxRecDepth 4000 in decide

/-! ## Claim C5 -/
/-- C5: along every V2 run the `timerStarted` flag is monotone (so it becomes
true at most once), and the only step that can turn it on is a
speech-completion event (`onend`, or `onerror` as its soft-completion twin)
of the utterance marked `isFirstQuestion` — the welcome utterance of
`startAssessment`, which ends with the first question.  In particular the
timer never starts before that first utterance completes. -/
theorem claim5_timer_once (cfg : AssessmentConfig) (evs : List V2.Event) (e : V2.Event) :
    ((V2.run cfg evs).timerStarted = true →
      (V2.run cfg (evs ++ [e])).timerStarted = true) ∧
    ((V2.run cfg evs).timerStarted = false →
      (V2.run cfg (evs ++ [e])).timerStarted = true →
      (e = V2.Event.utterDone ∨ e = V2.Event.utterErr) ∧
      (V2.run cfg evs).speakingFirst = some true) := by
  have hrun : V2.run cfg (evs ++ [e]) = V2.step cfg e (V2.run cfg evs) := by
    simp [V2.run, List.foldl_append]
  have hinv := V2.flagInv_run cfg evs
  rw [hrun]
  generalize V2.run cfg evs = s at hinv ⊢
  constructor
  · intro ht
    cases e with
    | start =>
        have hat : (s.isAssessmentActive || s.isAssessmentTerminated) = true := by
          rcases hinv.1 ht with h | h <;> simp [h]
        simp only [V2.step, V2.startAssessment, hat, if_true]
        exact ht
    | utterDone =>
        simp only [V2.step, V2.utteranceEnd]
        match s.speakingFirst with
        | none => exact ht
        | some b => cases b <;> simp [ht]
    | utterErr =>
        simp only [V2.step, V2.utteranceError]
        match s.speakingFirst with
        | none => exact ht
        | some b => cases b <;> simp [ht]
    | aiFire =>
        simp only [V2.step, V2.aiRespond]
        match s.pendingAi with
        | none => exact ht
        | some cq =>
            by_cases hlt : cq + 1 < cfg.questions.length <;> simp [hlt, ht]
    | completeFire =>
        simp only [V2.step, V2.completeDeliver]
        split <;> exact ht
    | faceAway =>
        simp only [V2.step, V2.handleFaceAwayViolation]
        split <;> exact ht
    | securityAlert => exact ht
    | tick =>
        simp only [V2.step, V2.tick]
        split
        · split <;> exact ht
        · exact ht
    | send =>
        simp only [V2.step, V2.sendMessage]
        split
        · exact ht
        · split <;> exact ht
    | typeText t => exact ht
    | faceUpdate b => exact ht
  · intro hf htrue
    cases e with
    | start =>
        exfalso
        simp only [V2.step, V2.startAssessment] at htrue
        split at htrue
        · simp [hf] at htrue
        · simp at htrue
    | utterDone =>
        simp only [V2.step, V2.utteranceEnd] at htrue
        rcases hsf : s.speakingFirst with _ | b
        · rw [hsf] at htrue
          simp [hf] at htrue
        · cases b
          · rw [hsf] at htrue
            simp [hf] at htrue
          · exact ⟨Or.inl rfl, rfl⟩
    | utterErr =>
        simp only [V2.step, V2.utteranceError] at htrue
        rcases hsf : s.speakingFirst with _ | b
        · rw [hsf] at htrue
          simp [hf] at htrue
        · cases b
          · rw [hsf] at htrue
            simp [hf] at htrue
          · exact ⟨Or.inr rfl, rfl⟩
    | aiFire =>
        exfalso
        rcases hsp : s.pendingAi with _ | cq
        · simp only [V2.step, V2.aiRespond, hsp] at htrue
          simp [hf] at htrue
        · simp only [V2.step, V2.aiRespond, hsp] at htrue
          split at htrue <;> simp [hf] at htrue
    | completeFire =>
        exfalso
        simp only [V2.step, V2.completeDeliver] at htrue
        split at htrue <;> simp [hf] at htrue
    | faceAway =>
        exfalso
        simp only [V2.step, V2.handleFaceAwayViolation] at htrue
        split at htrue <;> simp [hf] at htrue
    | securityAlert =>
        exfalso
        simp only [V2.step, V2.handleSecurityAlert] at htrue
        simp [hf] at htrue
    | tick =>
        exfalso
        simp only [V2.step, V2.tick] at htrue
        split at htrue
        · split at htrue <;> simp [hf] at htrue
        · simp [hf] at htrue
    | send =>
        exfalso
        simp only [V2.step, V2.sendMessage] at htrue
        split at htrue
        · simp [hf] at htrue
        · split at htrue <;> simp [hf] at htrue
    | typeText t =>
        exfalso
        simp only [V2.step] at htrue
        simp [hf] at htrue
    | faceUpdate b =>
        exfalso
        simp only [V2.step] at htrue
        simp [hf] at htrue

/-- Witness for C5 at a concrete input: after `start` the flag is still off,
and the step that turns it on is the completion of the first-question
utterance. -/
theorem claim5_timer_once_witness :
    (V2.Event.utterDone = V2.Event.utterDone ∨ V2.Event.utterDone = V2.Event.utterErr) ∧
    (V2.run exampleConfig [V2.Event.start]).speakingFirst = some true :=
  (claim5_timer_once exampleConfig [V2.Event.start] V2.Event.utterDone).2
    (by decide) (by decide)

/-! ## Claim C6 -/

/-- C6, failing input: when the 30-second response timeout for question 0
fires with no response submitted and a further question remaining, the code
calls `askQuestion(1)`, but `askQuestion` early-returns because
`waitingForUserResponse` is still true — so the session does *not* advance to
question 1: the index stays 0, no new question message is appended, the
session is not terminated, and the consumed timeout leaves no timeout armed.
This contradicts the auto-advance promised by the claim and by the code's own
comment ("Auto-advance to next question if user hasn't responded"). -/
theorem claim6_timeout_stalls :
    claim6State.questionTimeout = some 0 ∧
    claim6State.userHasResponded = false ∧
    claim6State.waitingForUserResponse = true ∧
    (V1.step claim6Config (V1.Event.qTimeout 0) claim6State).currentQuestionIndex = 0 ∧
    (V1.step claim6Config (V1.Event.qTimeout 0) claim6State).messages
        = claim6State.messages ∧
    (V1.step claim6Config (V1.Event.qTimeout 0) claim6State).waitingForUserResponse = true ∧
    (V1.step claim6Config (V1.Event.qTimeout 0) claim6State).isAssessmentTerminated = false ∧
    (V1.step claim6Config (V1.Event.qTimeout 0) claim6State).questionsAnswered = 0 ∧
    (V1.step claim6Config (V1.Event.qTimeout 0) claim6State).questionTimeout = none := by
  set_option maxRecDepth 4000 in decide

/-! ## Claim C7 -/
/-- C7: a submission made while `canUserRespond` is false, or while no face is
currently detected, is rejected with no state change at all — in particular
the question counter, the phase flags and the message list are untouched. -/
theorem claim7_invalid_turn (s : V2.State)
    (h : s.canUserRespond = false ∨ s.faceDetected = false) :
    V2.sendMessage s = s ∧
    (V2.sendMessage s).messages = s.messages ∧
    (V2.sendMessage s).currentQuestion = s.currentQuestion ∧
    (V2.sendMessage s).pendingAi = s.pendingAi := by
  have hid : V2.sendMessage s = s := by
    rcases h with h | h
    · by_cases hface : s.faceDetected
      · simp [V2.sendMessage, hface, h]
      · simp [V2.sendMessage, hface]
    · simp [V2.sendMessage, h]
  exact ⟨hid, by rw [hid], by rw [hid], by rw [hid]⟩

/-- Witness for C7 at a concrete input. -/
theorem claim7_invalid_turn_witness :
    V2.sendMessage claim7State = claim7State ∧
    (V2.sendMessage claim7State).messages = claim7State.messages ∧
    (V2.sendMessage claim7State).currentQuestion = claim7State.currentQuestion ∧
    (V2.sendMessage claim7State).pendingAi = claim7State.pendingAi :=
  claim7_invalid_turn claim7State (Or.inl (by decide))

/-! ## Claim C8 -/
/-- C8: the first `start` (the one-shot initialization effect) moves the
session from `NotStarted` to the `Speaking(0)` phase, and `start` is
idempotent: a second delivery is an exact no-op on any state. -/
theorem claim8_start_idempotent (cfg : AssessmentConfig) :
    V1.specPhase V1.initState = SpecPhase.notStarted ∧
    V1.specPhase (V1.step cfg V1.Event.start V1.initState) = SpecPhase.speakingQ 0 ∧
    (V1.step cfg V1.Event.start V1.initState).assessmentInitialized = true ∧
    ∀ s : V1.State, V1.step cfg V1.Event.start (V1.step cfg V1.Event.start s) =
      V1.step cfg V1.Event.start s := by
  refine ⟨rfl, rfl, rfl, ?_⟩
  intro s
  by_cases h1 : s.isAssessmentTerminated
  · simp [V1.step, h1]
  · by_cases h2 : s.assessmentInitialized <;> simp [V1.step, h1, h2]

/-! ## Claim C9 -/
/-- C9: along every run at most one interim message (identified by the
sentinel id) is live; a new interim transcript replaces any previous interim
message, leaving exactly the new one; and an accepted submission removes the
interim message entirely. -/
theorem claim9_interim_sentinel (cfg : AssessmentConfig) (evs : List V1.Event) :
    V1.interimCount (V1.run cfg evs).messages ≤ 1 ∧
    (∀ t : String, (t == "") = false →
      (V1.run cfg (evs ++ [V1.Event.interim t])).messages.filter
          (fun m => m.id == MsgId.interimId)
        = [⟨MsgId.interimId, Sender.candidate, t, true⟩]) ∧
    (∀ t : String, isBlank t = false →
      (V1.run cfg evs).isAssessmentTerminated = false →
      V1.interimCount (V1.run cfg (evs ++ [V1.Event.submit t])).messages = 0) := by
  have hnil : ∀ l : List Message,
      (l.filter fun m => m.id != MsgId.interimId).filter (fun m => m.id == MsgId.interimId)
        = [] := fun l => List.length_eq_zero.mp (V1.interimCount_filterOut l)
  refine ⟨V1.interimCount_run cfg evs, fun t ht => ?_, fun t ht hterm => ?_⟩
  · rw [show V1.run cfg (evs ++ [V1.Event.interim t])
          = V1.step cfg (V1.Event.interim t) (V1.run cfg evs) by
        simp [V1.run, List.foldl_append]]
    simp only [V1.step, ht, Bool.false_eq_true, if_false]
    rw [List.filter_append, hnil]
    simp
  · rw [show V1.run cfg (evs ++ [V1.Event.submit t])
          = V1.step cfg (V1.Event.submit t) (V1.run cfg evs) by
        simp [V1.run, List.foldl_append]]
    simp only [V1.step, V1.handleSendMessage, ht, hterm, Bool.or_self, Bool.false_eq_true,
      if_false]
    simp [V1.interimCount_append, V1.interimCount_filterOut]

/-- Witness for C9 at a concrete input. -/
theorem claim9_interim_sentinel_witness :
    V1.interimCount (V1.run exampleConfig [V1.Event.start]).messages ≤ 1 ∧
    (V1.run exampleConfig ([V1.Event.start] ++ [V1.Event.interim "hello"])).messages.filter
        (fun m => m.id == MsgId.interimId)
      = [⟨MsgId.interimId, Sender.candidate, "hello", true⟩] ∧
    V1.interimCount
        (V1.run exampleConfig ([V1.Event.start] ++ [V1.Event.submit "hi"])).messages = 0 :=
  ⟨(claim9_interim_sentinel exampleConfig [V1.Event.start]).1,
    (claim9_interim_sentinel exampleConfig [V1.Event.start]).2.1 "hello" (by decide),
    (claim9_interim_sentinel exampleConfig [V1.Event.start]).2.2 "hi" (by decide) (by decide)⟩

/-! ## Claim C10 -/
/-- C10: when the response timeout fires on the last question with the
session live, no response pending and nothing ever answered, the session ends
with reason `completed` and the result reports `questionsAnswered =
totalQuestions`, score 100 and passed — a session completed entirely by
unanswered skips counts as a full pass. -/
theorem claim10_skip_full_pass (cfg : AssessmentConfig) (s : V1.State) (i : Nat)
    (h1 : s.isAssessmentTerminated = false) (h2 : s.userHasResponded = false)
    (h3 : s.questionTimeout = some i) (h4 : cfg.questions.length = i + 1)
    (h5 : s.questionsAnswered = 0) :
    (V1.step cfg (V1.Event.qTimeout i) s).isAssessmentTerminated = true ∧
    (V1.step cfg (V1.Event.qTimeout i) s).terminationReason = some Reason.completed ∧
    ∃ r, (V1.step cfg (V1.Event.qTimeout i) s).results = s.results ++ [r] ∧
      r.status = Status.completed ∧
      r.questionsAnswered = cfg.questions.length ∧
      r.totalQuestions = cfg.questions.length ∧
      r.score = 100 ∧
      r.passed = true := by
  have hscore : jsRound100 (i + 1) (i + 1) = 100 := jsRound100_self _ (Nat.succ_pos i)
  refine ⟨?_, ?_, V1.mkResult cfg Reason.completed { s with questionTimeout := none },
      ?_, ?_, ?_, ?_, ?_, ?_⟩ <;>
    simp [V1.step, V1.endAssessment, V1.mkResult, V1.finalQuestionsAnswered,
      h1, h2, h3, h4, hscore]

/-- Witness for C10 at a concrete input. -/
theorem claim10_skip_full_pass_witness :
    (V1.step claim10Config (V1.Event.qTimeout 0) claim10State).isAssessmentTerminated = true ∧
    (V1.step claim10Config (V1.Event.qTimeout 0) claim10State).terminationReason
        = some Reason.completed ∧
    ∃ r, (V1.step claim10Config (V1.Event.qTimeout 0) claim10State).results
          = claim10State.results ++ [r] ∧
      r.status = Status.completed ∧
      r.questionsAnswered = claim10Config.questions.length ∧
      r.totalQuestions = claim10Config.questions.length ∧
      r.score = 100 ∧
      r.passed = true :=
  claim10_skip_full_pass claim10Config claim10State 0 (by decide) (by decide) (by decide)
    (by decide) (by decide)

end Assessment
